import Mathlib

/-! A shallow embedding of `filecmdrlib.c`.

The library functions of `filecmdrlib.c` are translated to Lean functions over an
explicit process state (`World`) and an explicit description of everything the
operating system and the C library decide (`Sys`).

* C strings held in buffers are lists of characters; the text of a buffer is the
  part before its first NUL (`cstr`).
* `mode_t`, `uid_t` and `gid_t` are unsigned: they are natural numbers.
* `int`, `off_t` and `time_t` values are integers.
* A function whose C body may run into undefined behaviour, or may replace the
  process image, returns an `Outcome`.
-/

namespace FileCmdr

/-! ## Constants of `filecmdrlib.h` -/

def FTYPE_ERR : Int := -1
def FTYPE_DIR : Int := 0
def FTYPE_EXE : Int := 1
def FTYPE_REG : Int := 2
def FTYPE_LNK : Int := 8
def FTYPE_OTH : Int := 11

def MODE_MIN : Nat := 0o010000
def MODE_MAX : Nat := 0o167777

/-! ## Constants of `filecmdrlib.c` -/

def MODE_S_LEN : Nat := 11
def TIME_S_LEN : Nat := 17

/-! ## Constants of the system headers `<sys/stat.h>` and `<errno.h>` -/

def S_IFMT : Nat := 0o170000
def S_IFSOCK : Nat := 0o140000
def S_IFLNK : Nat := 0o120000
def S_IFREG : Nat := 0o100000
def S_IFBLK : Nat := 0o060000
def S_IFDIR : Nat := 0o040000
def S_IFCHR : Nat := 0o020000
def S_IFIFO : Nat := 0o010000

def S_IRUSR : Nat := 0o400
def S_IWUSR : Nat := 0o200
def S_IXUSR : Nat := 0o100
def S_IRGRP : Nat := 0o040
def S_IWGRP : Nat := 0o020
def S_IXGRP : Nat := 0o010
def S_IROTH : Nat := 0o004
def S_IWOTH : Nat := 0o002
def S_IXOTH : Nat := 0o001

def ENOENT : Int := 2
def ENOMEM : Int := 12
def ESPIPE : Int := 29
def EDOM : Int := 33

/-- The value `getchar` returns at end of input. -/
def EOF : Int := -1

/-! ## Data -/

/-- The fields of `struct stat` that the library reads. -/
structure Stat where
  st_mode : Nat
  st_uid : Nat
  st_gid : Nat
  st_size : Int
  st_mtime : Int
deriving DecidableEq

/-- The fields of `struct tm` that the library reads. -/
structure Tm where
  tm_min : Int
  tm_hour : Int
  tm_mday : Int
  tm_mon : Int
  tm_year : Int
deriving DecidableEq

/-- The mutable state of the process. -/
structure World where
  /-- everything written to standard output so far -/
  stdout : List Char
  /-- the input that standard input still holds -/
  stdin : List Char
  /-- the current working directory -/
  cwd : String
  /-- the global `errno` -/
  errno : Int
  /-- the number of `calloc` calls made so far -/
  callocs : Nat
deriving DecidableEq

/-- Everything the operating system and the C library decide. A failing call
gives the `errno` value it sets. -/
structure Sys where
  /-- `ARG_MAX` of `<limits.h>` -/
  ARG_MAX : Nat
  getuid : Nat
  getgid : Nat
  /-- whether the `k`-th `calloc` call of the process (counted from 0) succeeds -/
  calloc_ok : Nat → Bool
  /-- `lstat(path, &sb)` in the given working directory -/
  lstat : String → String → Except Int Stat
  /-- `getpwuid(uid)->pw_name`, `none` for a NULL result -/
  getpwuid : Nat → Option String
  /-- `localtime(&time)` -/
  localtime : Int → Except Int Tm
  /-- `fseek(stdin, 0, SEEK_END)` on the given unread input: the input that can
  still be read afterwards, or the error -/
  fseek_end : List Char → Except Int (List Char)
  /-- `scandir(path, &namelist, NULL, alphasort)` in the given working directory:
  the entry names in the order of the filled `namelist` -/
  scandir : String → String → Except Int (List String)
  /-- `chdir(path)` in the given working directory: the new working directory -/
  chdir : String → String → Except Int String
  /-- `fopen(path, "r")` in the given working directory followed by the `getline`
  calls: the lines of the file, each one as `getline` returns it -/
  fopen : String → String → Except Int (List (List Char))
  /-- `fwrite(line, 1, read, stdout)` given the output written so far: the number
  of characters written -/
  fwrite : List Char → List Char → Nat
  /-- `execv(path, argv)`: `none` when the process image is replaced, else the
  error -/
  execv : String → List String → Option Int

/-- What a call of a library function leads to. -/
inductive Outcome (α : Type) where
  /-- the function returns `v`, leaving the process in state `w` -/
  | returned (v : α) (w : World)
  /-- `execv` replaced the process image: the function never returns -/
  | replaced (path : String) (argv : List String) (w : World)
  /-- the C program has undefined behaviour (an access outside an array) -/
  | undefined
deriving DecidableEq

/-- Sequencing of two steps of a function body. -/
def Outcome.andThen {α β : Type} (o : Outcome α) (k : α → World → Outcome β) : Outcome β :=
  match o with
  | .returned v w => k v w
  | .replaced p a w => .replaced p a w
  | .undefined => .undefined

/-- The text of a C string stored in a buffer: the characters before the first NUL. -/
def cstr (buf : List Char) : List Char :=
  buf.takeWhile (fun c => c != '\x00')

/-! ## `is_user_exec` and `mode2str` -/

/-- `is_user_exec`: the execute bit that applies to the calling process. The `bool`
result of `mode & bit` is true exactly when the bit is set. -/
def is_user_exec (sys : Sys) (mode ouid ogid : Nat) : Bool :=
  if ouid = sys.getuid then
    mode &&& S_IXUSR != 0
  else if ogid = sys.getgid then
    mode &&& S_IXGRP != 0
  else
    mode &&& S_IXOTH != 0

/-- `mode2str`: the returned buffer (`none` for NULL) and the state afterwards.
The buffer comes zero-filled from `calloc`, so a character no statement assigns
stays NUL. -/
def mode2str (sys : Sys) (w : World) (mode ouid ogid : Nat) : Option (List Char) × World :=
  if mode < MODE_MIN ∨ mode > MODE_MAX then
    (none, { w with errno := EDOM })
  else if sys.calloc_ok w.callocs = false then
    (none, { w with callocs := w.callocs + 1, errno := ENOMEM })
  else
    let t : Char :=
      if mode &&& S_IFMT = S_IFDIR then 'd'
      else if mode &&& S_IFMT = S_IFLNK then 'l'
      else if mode &&& S_IFMT = S_IFIFO ∨ mode &&& S_IFMT = S_IFCHR ∨
          mode &&& S_IFMT = S_IFBLK then 'o'
      else if is_user_exec sys mode ouid ogid then 'e'
      else if mode &&& S_IFMT = S_IFREG then 'f'
      else '\x00'
    (some [t,
        if mode &&& S_IRUSR != 0 then 'r' else '-',
        if mode &&& S_IWUSR != 0 then 'w' else '-',
        if mode &&& S_IXUSR != 0 then 'x' else '-',
        if mode &&& S_IRGRP != 0 then 'r' else '-',
        if mode &&& S_IWGRP != 0 then 'w' else '-',
        if mode &&& S_IXGRP != 0 then 'x' else '-',
        if mode &&& S_IROTH != 0 then 'r' else '-',
        if mode &&& S_IWOTH != 0 then 'w' else '-',
        if mode &&& S_IXOTH != 0 then 'x' else '-',
        '\x00'],
      { w with callocs := w.callocs + 1 })

/-! ## `printf` conversions -/

/-- The conversion `%d` (and `%lld`): a minus sign for a negative value, then the
decimal digits. -/
def fmt_d (v : Int) : List Char :=
  if v < 0 then '-' :: Nat.toDigits 10 v.natAbs else Nat.toDigits 10 v.natAbs

/-- The conversion `%<width>d`: `%d`, padded with spaces on the left up to `width`. -/
def fmt_wd (width : Nat) (v : Int) : List Char :=
  List.replicate (width - (fmt_d v).length) ' ' ++ fmt_d v

/-- The conversion `%0<width>d`: `%d`, padded with zeros after the sign up to
`width`. -/
def fmt_0wd (width : Nat) (v : Int) : List Char :=
  if v < 0 then
    '-' :: (List.replicate (width - 1 - (Nat.toDigits 10 v.natAbs).length) '0'
      ++ Nat.toDigits 10 v.natAbs)
  else
    List.replicate (width - (Nat.toDigits 10 v.natAbs).length) '0'
      ++ Nat.toDigits 10 v.natAbs

/-- The conversion `%-<width>s`: the string, padded with spaces on the right up to
`width`. -/
def fmt_ls (width : Nat) (s : List Char) : List Char :=
  s ++ List.replicate (width - s.length) ' '

/-- The output of `printf(fmt, arg)` for a format whose only conversion is one `%s`. -/
def printf_s : List Char → List Char → List Char
  | [], _ => []
  | c :: rest, arg =>
    if c = '%' ∧ rest.head? = some 's' then arg ++ rest.tail
    else c :: printf_s rest arg

/-! ## `time2str` -/

/-- `time2str`: the returned buffer (`none` for NULL). `sprintf` writes the
formatted text and its terminator into the `TIME_S_LEN` bytes of the buffer; a
longer text is written past its end. The sums `tm_mon + 1` and `tm_year + 1900`
are taken in the integers: a sum that does not fit an `int` has more digits
than the buffer holds, so it is among the undefined cases as well. -/
def time2str (sys : Sys) (w : World) (time : Int) : Outcome (Option (List Char)) :=
  match sys.localtime time with
  | .error e => .returned none { w with errno := e }
  | .ok tb =>
    if sys.calloc_ok w.callocs = false then
      .returned none { w with callocs := w.callocs + 1, errno := ENOMEM }
    else
      let s := fmt_0wd 2 tb.tm_mday ++ '/' :: fmt_0wd 2 (tb.tm_mon + 1) ++ '/' ::
        fmt_wd 4 (tb.tm_year + 1900) ++ ' ' :: fmt_0wd 2 tb.tm_hour ++ ':' ::
        fmt_0wd 2 tb.tm_min
      if s.length + 1 > TIME_S_LEN then .undefined
      else
        .returned (some (s ++ List.replicate (TIME_S_LEN - s.length) '\x00'))
          { w with callocs := w.callocs + 1 }

/-! ## `printfinf` -/

/-- The closing statements of `printfinf` ("Determine file type and return"), on
the mode and owner ids of the `struct stat`. -/
def printfinf_ftype (sys : Sys) (st_mode st_uid st_gid : Nat) : Int :=
  if st_mode &&& S_IFMT = S_IFDIR then FTYPE_DIR
  else if st_mode &&& S_IFMT = S_IFLNK then FTYPE_LNK
  else if st_mode &&& S_IFMT = S_IFIFO ∨ st_mode &&& S_IFMT = S_IFCHR ∨
      st_mode &&& S_IFMT = S_IFBLK then FTYPE_OTH
  else if is_user_exec sys st_mode st_uid st_gid then FTYPE_EXE
  else if st_mode &&& S_IFMT = S_IFREG then FTYPE_REG
  else FTYPE_ERR

/-- The line `printf("%s %-8s %12lld %s %s\n", mode_s, pw_name, st_size, time_s, path)`
writes. -/
def printfinf_line (mode_s : List Char) (pw_name : String) (st_size : Int)
    (time_s : List Char) (path : String) : List Char :=
  cstr mode_s ++ ' ' :: fmt_ls 8 pw_name.toList ++ ' ' :: fmt_wd 12 st_size ++ ' ' ::
    cstr time_s ++ ' ' :: path.toList ++ ['\n']

/-- `printfinf`; a NULL `path` is `none`. -/
def printfinf (sys : Sys) (w : World) (path : Option String) : Outcome Int :=
  match path with
  | none => .returned FTYPE_ERR w
  | some p =>
    match sys.lstat w.cwd p with
    | .error e => .returned FTYPE_ERR { w with errno := e }
    | .ok sb =>
      match sys.getpwuid sb.st_uid with
      | none => .returned FTYPE_ERR w
      | some pw_name =>
        match mode2str sys w sb.st_mode sb.st_uid sb.st_gid with
        | (none, w1) => .returned FTYPE_ERR w1
        | (some mode_s, w1) =>
          (time2str sys w1 sb.st_mtime).andThen fun r w2 =>
            match r with
            | none => .returned FTYPE_ERR w2
            | some time_s =>
              .returned (printfinf_ftype sys sb.st_mode sb.st_uid sb.st_gid)
                { w2 with stdout := w2.stdout ++
                    printfinf_line mode_s pw_name sb.st_size time_s p }

/-! ## `execfile` -/

/-- `fgets` reading at most `n` characters: the characters stored and the input
left. It stops after a newline. -/
def fgets_read : Nat → List Char → List Char × List Char
  | 0, input => ([], input)
  | _ + 1, [] => ([], [])
  | n + 1, c :: cs =>
    if c = '\n' then ([c], cs)
    else ((c :: (fgets_read n cs).1), (fgets_read n cs).2)

/-- `fgets(buffer, size, stdin)`: `none` (NULL) at end of input, else the characters
stored in `buffer` before the terminator and the input left. -/
def fgets (size : Nat) (input : List Char) : Option (List Char × List Char) :=
  if input = [] then none else some (fgets_read (size - 1) input)

/-- One call `strsep(&bp, delim)` with `bp` pointing at the text `s`: the token
returned and the new `bp` (`none` for NULL). -/
def strsep (s : List Char) (delim : List Char) : List Char × Option (List Char) :=
  match s.span (fun c => !delim.contains c) with
  | (tok, []) => (tok, none)
  | (tok, _ :: rest) => (tok, some rest)

/-- The loop `while ((tokens[i] = strsep(&bp, " \t")) != NULL) i++;`: the tokens
stored, in order. Every call of `strsep` shortens the text `bp` points at, so a
bound of one more than its length is never exhausted. -/
def execfile_tokens : Nat → Option (List Char) → List (List Char)
  | _, none => []
  | 0, some _ => []
  | fuel + 1, some s =>
    (strsep s [' ', '\t']).1 :: execfile_tokens fuel (strsep s [' ', '\t']).2

/-- `execfile`. The vector passed to `execv` is `argv`; its closing NULL entry is
the one the loop stores last. The array `tokens` has `ARG_MAX/2` entries. -/
def execfile (sys : Sys) (w : World) (path : String) : Outcome Int :=
  let w1 := { w with stdout := w.stdout ++
    ("Enter any arguments to ".toList ++ path.toList ++ ": ".toList) }
  match fgets (sys.ARG_MAX + 1) w1.stdin with
  | none => .returned (-1) w1
  | some (buffer, rest) =>
    let w2 := { w1 with stdin := rest }
    let line := buffer.takeWhile (fun c => c != '\n' && c != '\x00')
    let toks := execfile_tokens (line.length + 1) (some line)
    if toks.length + 2 > sys.ARG_MAX / 2 then .undefined
    else
      match sys.execv path (path :: toks.map String.mk) with
      | none => .replaced path (path :: toks.map String.mk) w2
      | some e => .returned (-1) { w2 with errno := e }

/-! ## `listdir` and `listfile` -/

/-- The `for` loop of `listdir` over the scanned entry names. -/
def listdir_loop (sys : Sys) : World → List String → Outcome Int
  | w, [] => .returned 0 w
  | w, d_name :: rest =>
    (printfinf sys w (some d_name)).andThen fun r w1 =>
      if r = -1 then .returned (-1) w1 else listdir_loop sys w1 rest

/-- `listdir`. -/
def listdir (sys : Sys) (w : World) (path : String) : Outcome Int :=
  match sys.scandir w.cwd path with
  | .error e => .returned (-1) { w with errno := e }
  | .ok namelist =>
    match sys.chdir w.cwd path with
    | .error e => .returned (-1) { w with errno := e }
    | .ok dir => listdir_loop sys { w with cwd := dir } namelist

/-- The `while` loop of `listfile` over the lines `getline` returns, and the
closing `putchar`. The `errno` value of a short write is left out. -/
def listfile_loop (sys : Sys) : World → List (List Char) → Outcome Int
  | w, [] => .returned 0 { w with stdout := w.stdout ++ ['\n'] }
  | w, line :: rest =>
    if sys.fwrite w.stdout line < line.length then
      .returned (-1) { w with stdout := w.stdout ++ line.take (sys.fwrite w.stdout line) }
    else
      listfile_loop sys { w with stdout := w.stdout ++ line } rest

/-- `listfile`. -/
def listfile (sys : Sys) (w : World) (path : String) : Outcome Int :=
  match sys.fopen w.cwd path with
  | .error e => .returned (-1) { w with errno := e }
  | .ok lines => listfile_loop sys w lines

/-! ## `useraction` -/

/-- The array `action_prompt`. -/
def action_prompt : List (List Char) :=
  ["Do you want to list the directory %s (y/n): ".toList,
   "Do you want to execute %s (y/n): ".toList,
   "Do you want to list the file %s (y/n): ".toList]

/-- `getchar()`: the character read as an `int`, or `EOF`, and the input left. -/
def getchar (input : List Char) : Int × List Char :=
  match input with
  | [] => (EOF, [])
  | c :: cs => ((c.toNat : Int), cs)

/-- `useraction`. Reading `action_prompt[ftype]` with a negative `ftype` is an
access outside the array. -/
def useraction (sys : Sys) (w : World) (ftype : Int) (path : String) : Outcome Int :=
  if ftype > FTYPE_REG then .returned 0 w
  else
    match (if ftype < 0 then none else action_prompt[ftype.toNat]?) with
    | none => .undefined
    | some fmt =>
      let w1 := { w with stdout := w.stdout ++ printf_s fmt path.toList }
      let input := (getchar w1.stdin).1
      let w2 := { w1 with stdin := (getchar w1.stdin).2 }
      match sys.fseek_end w2.stdin with
      | .error e => .returned (-1) { w2 with errno := e }
      | .ok left =>
        let w3 := { w2 with stdin := left }
        if input = ('y'.toNat : Int) ∨ input = ('Y'.toNat : Int) then
          if ftype = FTYPE_DIR then listdir sys w3 path
          else if ftype = FTYPE_EXE then execfile sys w3 path
          else if ftype = FTYPE_REG then listfile sys w3 path
          else .returned 0 w3
        else .returned 0 w3

/-! ## Concrete environments used to evaluate the functions -/

/-- An environment in which every call succeeds: the calling process is root, the
one file is `frw-r-----`, owned by root, 1408 bytes long, last modified on
8 September 2016 at 20:06, and standard input is a regular file. -/
def sys0 : Sys where
  ARG_MAX := 4096
  getuid := 0
  getgid := 0
  calloc_ok := fun _ => true
  lstat := fun _ _ => .ok ⟨0o100640, 0, 0, 1408, 1473365160⟩
  getpwuid := fun _ => some "root"
  localtime := fun _ => .ok ⟨6, 20, 8, 8, 116⟩
  fseek_end := fun _ => .ok []
  scandir := fun _ _ => .ok [".", ".."]
  chdir := fun _ dir => .ok dir
  fopen := fun _ _ => .ok []
  fwrite := fun _ line => line.length
  execv := fun _ _ => none

/-- A fresh process in the root directory with nothing to read. -/
def w0 : World := ⟨[], [], "/", 0, 0⟩

/-- The environment `sys0` with a socket `srwxr-xr-x` owned by root in place of
the regular file. -/
def sys_socket : Sys :=
  { sys0 with lstat := fun _ _ => .ok ⟨0o140755, 0, 0, 0, 1473365160⟩ }

/-- The environment `sys0` with a calendar conversion that gives 9 April 924,
13:20, the UTC date of the time -33000000000. -/
def sys_year924 : Sys :=
  { sys0 with localtime := fun _ => .ok ⟨20, 13, 9, 3, -976⟩ }

/-- The environment `sys0` with a calendar conversion that gives 1 January 10000,
00:00, the UTC date of the time 253402300800. -/
def sys_year10000 : Sys :=
  { sys0 with localtime := fun _ => .ok ⟨0, 0, 1, 0, 8100⟩ }

/-- The environment `sys0` with a standard input that cannot seek (a pipe):
`fseek` fails with `ESPIPE`. -/
def sys_pipe : Sys :=
  { sys0 with fseek_end := fun _ => .error ESPIPE }

/-- The whitespace-delimited tokens of a line as the specification words them:
the maximal runs of characters other than space and tab. -/
def spec_tokens (line : List Char) : List (List Char) :=
  (line.splitOnP (fun c => c == ' ' || c == '\t')).filter (fun tok => !tok.isEmpty)

/-- The nine permission characters as the specification words them: for user,
group and other in turn, `r`, `w`, `x` where the bit is set and `-` where it is
clear. Bit 8 is `S_IRUSR`, bit 0 is `S_IXOTH`. -/
def spec_perms (mode : Nat) : List Char :=
  [if mode.testBit 8 then 'r' else '-',
   if mode.testBit 7 then 'w' else '-',
   if mode.testBit 6 then 'x' else '-',
   if mode.testBit 5 then 'r' else '-',
   if mode.testBit 4 then 'w' else '-',
   if mode.testBit 3 then 'x' else '-',
   if mode.testBit 2 then 'r' else '-',
   if mode.testBit 1 then 'w' else '-',
   if mode.testBit 0 then 'x' else '-']

/-- The environment `sys0` without the directory to list: `scandir` fails with
`ENOENT`. -/
def sys_nodir : Sys :=
  { sys0 with scandir := fun _ _ => .error ENOENT }

/-- The environment `sys0` with a directory that cannot be entered: `chdir` fails
with `ENOENT`. -/
def sys_nochdir : Sys :=
  { sys0 with chdir := fun _ _ => .error ENOENT }

/-- The environment `sys0` with a directory whose scan gives `.`, `..`, `a` and
`b`, all directories `drwxr-xr-x`, where `a` is gone by the time it is inspected:
`lstat` fails on it with `ENOENT`. -/
def sys_vanished : Sys :=
  { sys0 with
    scandir := fun _ _ => .ok [".", "..", "a", "b"]
    lstat := fun _ p =>
      if p = "a" then .error ENOENT else .ok ⟨0o040755, 0, 0, 1408, 1473365160⟩ }

/-- The state reached when `printfinf` is called on the names one after the
other, in the order of the list, and succeeds on every one of them, that is
returns a flag other than `FTYPE_ERR`; `none` when one of the calls does not. -/
def inspect_all (sys : Sys) : World → List String → Option World
  | w, [] => some w
  | w, d_name :: rest =>
    match printfinf sys w (some d_name) with
    | .returned r w1 => if r = FTYPE_ERR then none else inspect_all sys w1 rest
    | .replaced _ _ _ => none
    | .undefined => none

/-! ## Bit tests -/

/-- Masking with a single bit is non-zero exactly when that bit is set. -/
theorem land_two_pow_bne_zero (m k : Nat) : (m &&& 2 ^ k != 0) = m.testBit k := by
  rw [Nat.and_two_pow]
  cases h : m.testBit k
  · simp
  · simp

theorem land_S_IRUSR (m : Nat) : (m &&& S_IRUSR != 0) = m.testBit 8 :=
  land_two_pow_bne_zero m 8

theorem land_S_IWUSR (m : Nat) : (m &&& S_IWUSR != 0) = m.testBit 7 :=
  land_two_pow_bne_zero m 7

theorem land_S_IXUSR (m : Nat) : (m &&& S_IXUSR != 0) = m.testBit 6 :=
  land_two_pow_bne_zero m 6

theorem land_S_IRGRP (m : Nat) : (m &&& S_IRGRP != 0) = m.testBit 5 :=
  land_two_pow_bne_zero m 5

theorem land_S_IWGRP (m : Nat) : (m &&& S_IWGRP != 0) = m.testBit 4 :=
  land_two_pow_bne_zero m 4

theorem land_S_IXGRP (m : Nat) : (m &&& S_IXGRP != 0) = m.testBit 3 :=
  land_two_pow_bne_zero m 3

theorem land_S_IROTH (m : Nat) : (m &&& S_IROTH != 0) = m.testBit 2 :=
  land_two_pow_bne_zero m 2

theorem land_S_IWOTH (m : Nat) : (m &&& S_IWOTH != 0) = m.testBit 1 :=
  land_two_pow_bne_zero m 1

theorem land_S_IXOTH (m : Nat) : (m &&& S_IXOTH != 0) = m.testBit 0 :=
  land_two_pow_bne_zero m 0

/-- The permission characters read only the low nine bits of the mode. -/
theorem spec_perms_mod (mode : Nat) : spec_perms (mode % 512) = spec_perms mode := by
  have h : ∀ k, (mode % 512).testBit k = (decide (k < 9) && mode.testBit k) := by
    intro k
    rw [show (512 : Nat) = 2 ^ 9 by norm_num]
    exact Nat.testBit_mod_two_pow mode 9 k
  simp only [spec_perms, h]
  rfl

/-! ## `mode2str` -/

/-- C1, evaluated at a mode the claim covers: for the in-range mode 0140644 (a
socket with permissions rw-r--r--) `mode2str` returns a buffer whose first
character is still the NUL that `calloc` put there, none of `d`, `e`, `f`, `l`,
`o`, so the string it holds is empty instead of 10 characters long. -/
theorem mode2str_socket_falls_through :
    MODE_MIN ≤ 0o140644 ∧ 0o140644 ≤ MODE_MAX ∧
    (mode2str sys0 w0 0o140644 0 0).1 = some ("\x00rw-r--r--\x00".toList) ∧
    (cstr "\x00rw-r--r--\x00".toList).length = 0 := by
  decide

/-- C2: for a mode in the valid range, every buffer `mode2str` returns holds,
after its type character, the nine permission characters the specification
describes (letter where the bit is set, `-` where it is clear, in the order user,
group, other) and then the terminator, and it does return a buffer when `calloc`
succeeds; these nine characters are determined by the low nine bits of the mode
alone, so neither the type bits, nor the set-uid, set-gid and sticky bits, nor
any uid or gid changes them. -/
theorem mode2str_permission_chars (sys : Sys) (w : World) (mode ouid ogid : Nat)
    (hmin : MODE_MIN ≤ mode) (hmax : mode ≤ MODE_MAX) :
    (sys.calloc_ok w.callocs = true →
      ∃ buf, (mode2str sys w mode ouid ogid).1 = some buf) ∧
    (∀ buf, (mode2str sys w mode ouid ogid).1 = some buf →
      ∃ t, buf = t :: spec_perms mode ++ ['\x00']) ∧
    spec_perms mode = spec_perms (mode % 512) := by
  have hr : ¬ (mode < MODE_MIN ∨ mode > MODE_MAX) := by omega
  refine ⟨?_, ?_, (spec_perms_mod mode).symm⟩
  · intro hcalloc
    simp [mode2str, hr, hcalloc]
  · intro buf hbuf
    cases hcalloc : sys.calloc_ok w.callocs
    · simp [mode2str, hr, hcalloc] at hbuf
    · simp only [mode2str, hr, hcalloc, Bool.true_eq_false, if_false, land_S_IRUSR,
        land_S_IWUSR, land_S_IXUSR, land_S_IRGRP, land_S_IWGRP, land_S_IXGRP,
        land_S_IROTH, land_S_IWOTH, land_S_IXOTH, Option.some.injEq] at hbuf
      exact ⟨_, hbuf.symm⟩

/-- C2 at the mode 0100640 of a regular file: the buffer is `frw-r-----`. -/
theorem mode2str_permission_chars_witness :
    (∃ buf, (mode2str sys0 w0 0o100640 0 0).1 = some buf) ∧
    (∃ t, "frw-r-----\x00".toList = t :: spec_perms 0o100640 ++ ['\x00']) ∧
    spec_perms 0o100640 = spec_perms (0o100640 % 512) :=
  ⟨(mode2str_permission_chars sys0 w0 0o100640 0 0 (by decide) (by decide)).1 (by decide),
   (mode2str_permission_chars sys0 w0 0o100640 0 0 (by decide) (by decide)).2.1
     "frw-r-----\x00".toList (by decide),
   (mode2str_permission_chars sys0 w0 0o100640 0 0 (by decide) (by decide)).2.2⟩

/-- C3: `mode2str` returns NULL with `errno` set to `EDOM` for every mode below
`MODE_MIN` or above `MODE_MAX`, without having called `calloc`; when `calloc`
succeeds it returns a buffer for every mode from `MODE_MIN` to `MODE_MAX`; so,
when `calloc` succeeds, it fails with `EDOM` exactly for the modes outside that
range. -/
theorem mode2str_edom_iff_out_of_range (sys : Sys) (w : World) (mode ouid ogid : Nat) :
    (mode < MODE_MIN ∨ mode > MODE_MAX →
      mode2str sys w mode ouid ogid = (none, { w with errno := EDOM })) ∧
    (sys.calloc_ok w.callocs = true → MODE_MIN ≤ mode → mode ≤ MODE_MAX →
      ∃ buf, (mode2str sys w mode ouid ogid).1 = some buf) ∧
    (sys.calloc_ok w.callocs = true →
      (((mode2str sys w mode ouid ogid).1 = none ∧
          (mode2str sys w mode ouid ogid).2.errno = EDOM ∧
          (mode2str sys w mode ouid ogid).2.callocs = w.callocs) ↔
        (mode < MODE_MIN ∨ mode > MODE_MAX))) := by
  refine ⟨?_, ?_, ?_⟩
  · intro h
    simp [mode2str, h]
  · intro hc hmin hmax
    have hr : ¬ (mode < MODE_MIN ∨ mode > MODE_MAX) := by omega
    simp [mode2str, hr, hc]
  · intro hc
    by_cases h : mode < MODE_MIN ∨ mode > MODE_MAX
    · simp [mode2str, h]
    · simp [mode2str, h, hc]

/-- C3 at the modes 0 (below the range) and 0100640 (inside it). -/
theorem mode2str_edom_iff_out_of_range_witness :
    mode2str sys0 w0 0 0 0 = (none, { w0 with errno := EDOM }) ∧
    (∃ buf, (mode2str sys0 w0 0o100640 0 0).1 = some buf) :=
  ⟨(mode2str_edom_iff_out_of_range sys0 w0 0 0 0).1 (Or.inl (by decide)),
   (mode2str_edom_iff_out_of_range sys0 w0 0o100640 0 0).2.1 (by decide) (by decide)
     (by decide)⟩

/-! ## Classification -/

/-- When the file can be inspected and both strings are made, `printfinf` prints
its line and returns the flag its closing statements compute. -/
theorem printfinf_returns_ftype (sys : Sys) (w w1 w2 : World) (p pw_name : String)
    (sb : Stat) (mode_s time_s : List Char)
    (hstat : sys.lstat w.cwd p = .ok sb)
    (hpw : sys.getpwuid sb.st_uid = some pw_name)
    (hmode : mode2str sys w sb.st_mode sb.st_uid sb.st_gid = (some mode_s, w1))
    (htime : time2str sys w1 sb.st_mtime = .returned (some time_s) w2) :
    printfinf sys w (some p) =
      .returned (printfinf_ftype sys sb.st_mode sb.st_uid sb.st_gid)
        { w2 with stdout := w2.stdout ++
            printfinf_line mode_s pw_name sb.st_size time_s p } := by
  simp [printfinf, hstat, hpw, hmode, htime, Outcome.andThen]

/-- A call of `strsep` that leaves text behind leaves less than it was given. -/
theorem strsep_shortens (s delim rest : List Char)
    (h : (strsep s delim).2 = some rest) : rest.length < s.length := by
  unfold strsep at h
  have hlen : ((s.span (fun c => !delim.contains c)).1 ++
      (s.span (fun c => !delim.contains c)).2).length = s.length := by
    rw [List.span_eq_take_drop, List.takeWhile_append_dropWhile]
  revert h hlen
  rcases s.span (fun c => !delim.contains c) with ⟨tok, _ | ⟨c, r⟩⟩
  · simp
  · intro h hlen
    simp only [Option.some.injEq] at h
    subst h
    simp only [List.length_append, List.length_cons] at hlen
    omega

/-- The loop of `execfile` never exhausts its bound: any larger bound gives the
same tokens. -/
theorem execfile_tokens_fuel (fuel : Nat) :
    ∀ s : List Char, s.length < fuel →
      execfile_tokens (fuel + 1) (some s) = execfile_tokens fuel (some s) := by
  induction fuel with
  | zero => intro s h; omega
  | succ n ih =>
    intro s h
    rw [execfile_tokens, execfile_tokens]
    cases hbp : (strsep s [' ', '\t']).2 with
    | none => simp [execfile_tokens]
    | some rest =>
      have hlt := strsep_shortens s _ rest hbp
      rw [ih rest (by omega)]

/-- C4, evaluated at a socket: for a socket with mode 0140755 owned by the calling
user, whose type bits are `S_IFSOCK` and not `S_IFREG`, `printfinf` prints a mode
string that starts with `e` and returns `FTYPE_EXE`; and for the socket mode
0140644, on which nobody has execute permission, the classification is
`FTYPE_ERR`, not `FTYPE_OTH`. -/
theorem printfinf_socket_is_exe :
    0o140755 &&& S_IFMT = S_IFSOCK ∧ 0o140755 &&& S_IFMT ≠ S_IFREG ∧
    printfinf sys_socket w0 (some "/tmp/sock") =
      .returned FTYPE_EXE
        { w0 with
          stdout := "erwxr-xr-x root                0 08/09/2016 20:06 /tmp/sock\n".toList,
          callocs := 2 } ∧
    printfinf_ftype sys0 0o140644 0 0 = FTYPE_ERR ∧
    printfinf_ftype sys0 0o140644 0 0 ≠ FTYPE_OTH := by
  decide

/-- C5: for a mode in the valid range, the type character of every buffer
`mode2str` returns and the flag the closing statements of `printfinf` compute
agree: a flag other than `FTYPE_ERR` is the type character minus `'d'`, and the
flag is `FTYPE_ERR` exactly when the type character is left at NUL, no branch
having assigned one; and `mode2str` does return a buffer when `calloc` succeeds. -/
theorem mode2str_type_char_agrees_with_ftype (sys : Sys) (w : World)
    (mode ouid ogid : Nat) (hmin : MODE_MIN ≤ mode) (hmax : mode ≤ MODE_MAX) :
    (sys.calloc_ok w.callocs = true →
      ∃ t rest, (mode2str sys w mode ouid ogid).1 = some (t :: rest)) ∧
    (∀ t rest, (mode2str sys w mode ouid ogid).1 = some (t :: rest) →
      (printfinf_ftype sys mode ouid ogid ≠ FTYPE_ERR →
        printfinf_ftype sys mode ouid ogid = (t.toNat : Int) - ('d'.toNat : Int)) ∧
      (printfinf_ftype sys mode ouid ogid = FTYPE_ERR ↔ t = '\x00')) := by
  have hr : ¬ (mode < MODE_MIN ∨ mode > MODE_MAX) := by omega
  refine ⟨?_, ?_⟩
  · intro hcalloc
    simp [mode2str, hr, hcalloc]
  · intro t rest hbuf
    cases hcalloc : sys.calloc_ok w.callocs
    · simp [mode2str, hr, hcalloc] at hbuf
    · simp only [mode2str, hr, hcalloc, Bool.true_eq_false, if_false,
        Option.some.injEq, List.cons.injEq] at hbuf
      rw [← hbuf.1]
      unfold printfinf_ftype
      constructor
      · split_ifs <;> decide
      · split_ifs <;> decide

/-- C5 at the mode 0100640 of a regular file without execute permission: the
type character is `f` and the flag is `FTYPE_REG`. -/
theorem mode2str_type_char_agrees_with_ftype_witness :
    (∃ t rest, (mode2str sys0 w0 0o100640 0 0).1 = some (t :: rest)) ∧
    (printfinf_ftype sys0 0o100640 0 0 ≠ FTYPE_ERR →
      printfinf_ftype sys0 0o100640 0 0 = ('f'.toNat : Int) - ('d'.toNat : Int)) ∧
    (printfinf_ftype sys0 0o100640 0 0 = FTYPE_ERR ↔ 'f' = '\x00') :=
  ⟨(mode2str_type_char_agrees_with_ftype sys0 w0 0o100640 0 0 (by decide)
      (by decide)).1 (by decide),
   (mode2str_type_char_agrees_with_ftype sys0 w0 0o100640 0 0 (by decide)
      (by decide)).2 'f' "rw-r-----\x00".toList (by decide)⟩

/-! ## `time2str` -/

/-- C6, evaluated at a time before the year 1000: for the time -33000000000, which
the calendar conversion turns into 9 April 924, 13:20, `time2str` returns the
text `09/04/ 924 13:20`, whose year is padded with a space and not with a zero
(the zero-padded text would be `09/04/0924 13:20`); and for the time 253402300800,
in the year 10000, the formatted text has 17 characters, so `sprintf` writes
past the end of the 17-byte buffer. -/
theorem time2str_year_not_zero_padded :
    time2str sys_year924 w0 (-33000000000) =
      .returned (some "09/04/ 924 13:20\x00".toList) { w0 with callocs := 1 } ∧
    cstr "09/04/ 924 13:20\x00".toList ≠ "09/04/0924 13:20".toList ∧
    time2str sys_year10000 w0 253402300800 = .undefined := by
  decide

/-! ## `printfinf` -/

/-- `mode2str` writes nothing to standard output. -/
theorem mode2str_stdout (sys : Sys) (w : World) (mode ouid ogid : Nat) :
    (mode2str sys w mode ouid ogid).2.stdout = w.stdout := by
  unfold mode2str
  by_cases hr : mode < MODE_MIN ∨ mode > MODE_MAX
  · rw [if_pos hr]
  · rw [if_neg hr]
    cases hc : sys.calloc_ok w.callocs
    · rw [if_pos rfl]
    · rw [if_neg (by simp)]

/-- `time2str` writes nothing to standard output. -/
theorem time2str_stdout (sys : Sys) (w w1 : World) (time : Int) (r : Option (List Char))
    (h : time2str sys w time = .returned r w1) : w1.stdout = w.stdout := by
  unfold time2str at h
  cases hl : sys.localtime time with
  | error e =>
    simp only [hl, Outcome.returned.injEq] at h
    rw [← h.2]
  | ok tb =>
    simp only [hl] at h
    split_ifs at h
    · simp only [Outcome.returned.injEq] at h
      rw [← h.2]
    · simp only [Outcome.returned.injEq] at h
      rw [← h.2]

/-- C7 as it is worded fails: for the regular file `frw-r-----` owned by root,
1408 bytes long, last modified 08/09/2016 20:06, and the path `/etc/motd`,
`printfinf` prints a line with 13 spaces between `root` and `1408`, which is not
the line with 9 spaces. -/
theorem printfinf_example_line_not_nine_spaces :
    printfinf sys0 w0 (some "/etc/motd") =
      .returned FTYPE_REG
        { w0 with
          stdout := "frw-r----- root             1408 08/09/2016 20:06 /etc/motd\n".toList,
          callocs := 2 } ∧
    "frw-r----- root             1408 08/09/2016 20:06 /etc/motd\n".toList ≠
      "frw-r----- root         1408 08/09/2016 20:06 /etc/motd\n".toList := by
  decide

/-- C7, amended: for a file whose mode string is `frw-r-----` (regular, not
executable by the caller), whose owner name is `root`, whose size is 1408 and
whose modification time is rendered `08/09/2016 20:06`, and for every path `p`,
in every environment and state, `printfinf` returns `FTYPE_REG` and appends to
standard output exactly `frw-r----- root`, then 13 spaces (4 that pad the owner
name to 8 characters, the separating space and 8 that right-align the size in
12 characters), then `1408 08/09/2016 20:06 `, then `p`, then a newline. -/
theorem printfinf_example_line (sys : Sys) (w w1 w2 : World) (p : String) (sb : Stat)
    (hstat : sys.lstat w.cwd p = .ok sb)
    (hpw : sys.getpwuid sb.st_uid = some "root")
    (hsize : sb.st_size = 1408)
    (hmode : mode2str sys w sb.st_mode sb.st_uid sb.st_gid =
      (some "frw-r-----\x00".toList, w1))
    (htime : time2str sys w1 sb.st_mtime =
      .returned (some "08/09/2016 20:06\x00".toList) w2) :
    printfinf sys w (some p) =
      .returned FTYPE_REG
        { w2 with
          stdout := w.stdout ++ ("frw-r----- root".toList ++ (List.replicate 13 ' ' ++
            ("1408 08/09/2016 20:06 ".toList ++ (p.toList ++ ['\n'])))) } := by
  have hout : w2.stdout = w.stdout := by
    rw [time2str_stdout sys w1 w2 sb.st_mtime _ htime]
    have h1 := mode2str_stdout sys w sb.st_mode sb.st_uid sb.st_gid
    rw [hmode] at h1
    exact h1
  have hft : printfinf_ftype sys sb.st_mode sb.st_uid sb.st_gid = FTYPE_REG := by
    have hm : mode2str sys w sb.st_mode sb.st_uid sb.st_gid =
        (some ['f', 'r', 'w', '-', 'r', '-', '-', '-', '-', '-', '\x00'], w1) := hmode
    unfold mode2str at hm
    by_cases hr : sb.st_mode < MODE_MIN ∨ sb.st_mode > MODE_MAX
    · simp [hr] at hm
    · cases hc : sys.calloc_ok w.callocs
      · simp [hr, hc] at hm
      · simp only [hr, hc, Bool.true_eq_false, if_false, Prod.mk.injEq,
          Option.some.injEq, List.cons.injEq] at hm
        have ht := hm.1.1
        unfold printfinf_ftype
        revert ht
        split_ifs <;> intro ht <;> first | rfl | exact absurd ht (by decide)
  rw [printfinf_returns_ftype sys w w1 w2 p "root" sb _ _ hstat hpw hmode htime, hft,
    hsize, hout]
  rfl

/-- C7, amended, at the path `/etc/motd` in the environment where every call
succeeds. -/
theorem printfinf_example_line_witness :
    printfinf sys0 w0 (some "/etc/motd") =
      .returned FTYPE_REG
        { w0 with
          stdout := [] ++ ("frw-r----- root".toList ++ (List.replicate 13 ' ' ++
            ("1408 08/09/2016 20:06 ".toList ++ ("/etc/motd".toList ++ ['\n'])))),
          callocs := 2 } :=
  printfinf_example_line sys0 w0 { w0 with callocs := 1 } { w0 with callocs := 2 }
    "/etc/motd" ⟨0o100640, 0, 0, 1408, 1473365160⟩ rfl rfl rfl (by decide) (by decide)

/-! ## `useraction` -/

/-- C8, evaluated at each of the three classifications: for `FTYPE_LNK` and
`FTYPE_OTH`, whatever the environment, the state and the path, `useraction`
returns 0 and leaves the state as it was (nothing printed, nothing read); for
`FTYPE_ERR` the guard `ftype > FTYPE_REG` does not hold, and the function goes on
to read `action_prompt[-1]`, outside the array, instead of returning. -/
theorem useraction_ftype_err_passes_guard (sys : Sys) (w : World) (path : String) :
    useraction sys w FTYPE_LNK path = .returned 0 w ∧
    useraction sys w FTYPE_OTH path = .returned 0 w ∧
    useraction sys w FTYPE_ERR path = .undefined ∧
    useraction sys w FTYPE_ERR path ≠ .returned 0 w := by
  refine ⟨?_, ?_, ?_, ?_⟩ <;> simp [useraction, FTYPE_LNK, FTYPE_OTH, FTYPE_ERR, FTYPE_REG]

/-- C9 as it is worded fails: with a standard input that cannot seek, the answer
`n` to the prompt for a directory makes `useraction` return -1, not 0. -/
theorem useraction_declined_returns_error :
    useraction sys_pipe { w0 with stdin := "n\n".toList } FTYPE_DIR "/tmp" =
      .returned (-1)
        { w0 with
          stdout := "Do you want to list the directory /tmp (y/n): ".toList,
          stdin := "\n".toList,
          errno := ESPIPE } := by
  decide

/-- C9, amended: for a classification among `FTYPE_DIR`, `FTYPE_EXE` and
`FTYPE_REG`, every path and every response read from the prompt other than `y`
and `Y` (end of input included), `useraction` prints the prompt, and then: when
discarding the rest of standard input (`fseek`) succeeds it returns 0, when that
fails it returns -1 with the `errno` of `fseek`. In both cases the result holds
in every environment and the state changes by the prompt, the input consumed and
`errno` only, so none of `listdir`, `execfile` and `listfile` is performed. -/
theorem useraction_declined (sys : Sys) (w : World) (ftype : Int) (path : String)
    (hftype : ftype = FTYPE_DIR ∨ ftype = FTYPE_EXE ∨ ftype = FTYPE_REG)
    (hy : (getchar w.stdin).1 ≠ ('y'.toNat : Int))
    (hY : (getchar w.stdin).1 ≠ ('Y'.toNat : Int)) :
    ∃ fmt, action_prompt[ftype.toNat]? = some fmt ∧
      (∀ left, sys.fseek_end (getchar w.stdin).2 = .ok left →
        useraction sys w ftype path =
          .returned 0
            { w with stdout := w.stdout ++ printf_s fmt path.toList, stdin := left }) ∧
      (∀ e, sys.fseek_end (getchar w.stdin).2 = .error e →
        useraction sys w ftype path =
          .returned (-1)
            { w with
              stdout := w.stdout ++ printf_s fmt path.toList,
              stdin := (getchar w.stdin).2,
              errno := e }) := by
  have hy2 : (getchar w.stdin).1 ≠ 121 := hy
  have hY2 : (getchar w.stdin).1 ≠ 89 := hY
  rcases hftype with h | h | h <;> subst h
  · refine ⟨_, rfl, ?_, ?_⟩
    · intro left hl
      simp [useraction, FTYPE_DIR, FTYPE_REG, action_prompt, hl, hy2, hY2]
    · intro e he
      simp [useraction, FTYPE_DIR, FTYPE_REG, action_prompt, he]
  · refine ⟨_, rfl, ?_, ?_⟩
    · intro left hl
      simp [useraction, FTYPE_EXE, FTYPE_REG, action_prompt, hl, hy2, hY2]
    · intro e he
      simp [useraction, FTYPE_EXE, FTYPE_REG, action_prompt, he]
  · refine ⟨_, rfl, ?_, ?_⟩
    · intro left hl
      simp [useraction, FTYPE_REG, action_prompt, hl, hy2, hY2]
    · intro e he
      simp [useraction, FTYPE_REG, action_prompt, he]

/-- C9, amended, at the answer `n` to the prompt for a directory, in the
environment where every call succeeds. -/
theorem useraction_declined_witness :
    ∃ fmt, action_prompt[FTYPE_DIR.toNat]? = some fmt ∧
      (∀ left, sys0.fseek_end (getchar "n\n".toList).2 = .ok left →
        useraction sys0 { w0 with stdin := "n\n".toList } FTYPE_DIR "/tmp" =
          .returned 0
            { w0 with stdout := [] ++ printf_s fmt "/tmp".toList, stdin := left }) ∧
      (∀ e, sys0.fseek_end (getchar "n\n".toList).2 = .error e →
        useraction sys0 { w0 with stdin := "n\n".toList } FTYPE_DIR "/tmp" =
          .returned (-1)
            { w0 with
              stdout := [] ++ printf_s fmt "/tmp".toList,
              stdin := (getchar "n\n".toList).2,
              errno := e }) :=
  useraction_declined sys0 { w0 with stdin := "n\n".toList } FTYPE_DIR "/tmp"
    (Or.inl rfl) (by decide) (by decide)

/-! ## `execfile` -/

/-- C10, evaluated at two argument lines: for the line `a  b`, with two spaces
between the words, `execv` receives the path, `a`, an empty string and `b`,
where the whitespace-delimited tokens are `a` and `b`; for an empty line it
receives the path and an empty string, where there is no token at all. -/
theorem execfile_passes_empty_tokens :
    execfile sys0 { w0 with stdin := "a  b\n".toList } "/bin/echo" =
      .replaced "/bin/echo" ["/bin/echo", "a", "", "b"]
        { w0 with stdout := "Enter any arguments to /bin/echo: ".toList } ∧
    spec_tokens "a  b".toList = ["a".toList, "b".toList] ∧
    execfile sys0 { w0 with stdin := "\n".toList } "/bin/echo" =
      .replaced "/bin/echo" ["/bin/echo", ""]
        { w0 with stdout := "Enter any arguments to /bin/echo: ".toList } ∧
    spec_tokens [] = [] := by
  decide

/-! ## `listdir` -/

/-- After the entries on which `printfinf` succeeded, the loop of `listdir` goes
on with the entries that follow, from the state those calls left. -/
theorem listdir_loop_append (sys : Sys) (pre rest : List String) :
    ∀ w w1 : World, inspect_all sys w pre = some w1 →
      listdir_loop sys w (pre ++ rest) = listdir_loop sys w1 rest := by
  induction pre with
  | nil =>
    intro w w1 h
    simp only [inspect_all, Option.some.injEq] at h
    subst h
    rfl
  | cons d pre ih =>
    intro w w1 h
    rw [inspect_all] at h
    rw [List.cons_append, listdir_loop]
    cases hp : printfinf sys w (some d) with
    | returned r w2 =>
      rw [hp] at h
      by_cases hr : r = FTYPE_ERR
      · simp [hr] at h
      · simp only [hr, if_false] at h
        have hr2 : ¬ r = -1 := hr
        simp only [Outcome.andThen, hr2, if_false]
        exact ih w2 w1 h
    | replaced p a w2 => rw [hp] at h; simp at h
    | undefined => rw [hp] at h; simp at h

/-- The loop of `listdir` returns 0 exactly when `printfinf` succeeds on every
entry, and then leaves the state those calls leave. -/
theorem listdir_loop_returned_zero_iff (sys : Sys) (names : List String) :
    ∀ w w1 : World, listdir_loop sys w names = .returned 0 w1 ↔
      inspect_all sys w names = some w1 := by
  induction names with
  | nil =>
    intro w w1
    simp [listdir_loop, inspect_all]
  | cons d rest ih =>
    intro w w1
    rw [listdir_loop, inspect_all]
    cases hp : printfinf sys w (some d) with
    | returned r w2 =>
      by_cases hr : r = FTYPE_ERR
      · subst hr
        simp [Outcome.andThen, FTYPE_ERR]
      · have hr2 : ¬ r = -1 := hr
        simp only [Outcome.andThen, hr, hr2, if_false]
        exact ih w2 w1
    | replaced p a w2 => simp [Outcome.andThen]
    | undefined => simp [Outcome.andThen]

/-- C11: (1) when the directory scan fails, and (2) when the scan succeeds and
the change of working directory fails, `listdir` returns -1 and leaves the
state as it was but for `errno`: nothing is printed and no entry is inspected.
(3) Otherwise it runs `printfinf` on the scanned names in the order of the
scan: when `printfinf` succeeds on the entries `pre` and returns `FTYPE_ERR` on
the entry `d` that follows, `listdir` returns -1 in the state that failing call
left, whatever entries `post` come after, so none of them is inspected;
(4) and `listdir` returns 0 exactly when `printfinf` succeeds on every scanned
entry. -/
theorem listdir_stops_at_first_error (sys : Sys) (w : World) (path : String) :
    (∀ e, sys.scandir w.cwd path = .error e →
      listdir sys w path = .returned (-1) { w with errno := e }) ∧
    (∀ names e, sys.scandir w.cwd path = .ok names → sys.chdir w.cwd path = .error e →
      listdir sys w path = .returned (-1) { w with errno := e }) ∧
    (∀ names dir, sys.scandir w.cwd path = .ok names → sys.chdir w.cwd path = .ok dir →
      (∀ pre d post w1 w2, names = pre ++ d :: post →
        inspect_all sys { w with cwd := dir } pre = some w1 →
        printfinf sys w1 (some d) = .returned FTYPE_ERR w2 →
        listdir sys w path = .returned (-1) w2) ∧
      (∀ w1, listdir sys w path = .returned 0 w1 ↔
        inspect_all sys { w with cwd := dir } names = some w1)) := by
  refine ⟨?_, ?_, ?_⟩
  · intro e hscan
    simp [listdir, hscan]
  · intro names e hscan hchdir
    simp [listdir, hscan, hchdir]
  · intro names dir hscan hchdir
    have hl : listdir sys w path = listdir_loop sys { w with cwd := dir } names := by
      simp [listdir, hscan, hchdir]
    refine ⟨?_, ?_⟩
    · intro pre d post w1 w2 hnames hpre hd
      rw [hl, hnames, listdir_loop_append sys pre (d :: post) _ w1 hpre, listdir_loop, hd]
      simp [Outcome.andThen, FTYPE_ERR]
    · intro w1
      rw [hl]
      exact listdir_loop_returned_zero_iff sys names _ w1

/-- C11 in four environments: a directory that does not exist, a directory that
cannot be entered, a directory whose third entry `a` of four cannot be
inspected (the lines of `.` and `..` are printed, that of `b` is not), and a
directory whose two entries are both inspected. -/
theorem listdir_stops_at_first_error_witness :
    listdir sys_nodir w0 "/missing" = .returned (-1) { w0 with errno := ENOENT } ∧
    listdir sys_nochdir w0 "/locked" = .returned (-1) { w0 with errno := ENOENT } ∧
    listdir sys_vanished w0 "/tmp" =
      .returned (-1)
        { w0 with
          stdout := ("drwxr-xr-x root             1408 08/09/2016 20:06 .\n" ++
            "drwxr-xr-x root             1408 08/09/2016 20:06 ..\n").toList,
          cwd := "/tmp",
          errno := ENOENT,
          callocs := 4 } ∧
    listdir sys0 w0 "/tmp" =
      .returned 0
        { w0 with
          stdout := ("frw-r----- root             1408 08/09/2016 20:06 .\n" ++
            "frw-r----- root             1408 08/09/2016 20:06 ..\n").toList,
          cwd := "/tmp",
          callocs := 4 } :=
  ⟨(listdir_stops_at_first_error sys_nodir w0 "/missing").1 ENOENT rfl,
   (listdir_stops_at_first_error sys_nochdir w0 "/locked").2.1 [".", ".."] ENOENT rfl rfl,
   ((listdir_stops_at_first_error sys_vanished w0 "/tmp").2.2 [".", "..", "a", "b"] "/tmp"
      rfl rfl).1 [".", ".."] "a" ["b"]
      { w0 with
        stdout := ("drwxr-xr-x root             1408 08/09/2016 20:06 .\n" ++
          "drwxr-xr-x root             1408 08/09/2016 20:06 ..\n").toList,
        cwd := "/tmp",
        callocs := 4 }
      _ rfl (by decide) (by decide),
   (((listdir_stops_at_first_error sys0 w0 "/tmp").2.2 [".", ".."] "/tmp" rfl rfl).2 _).2
     (by decide)⟩

end FileCmdr
